import Mathlib

/-!
Shallow embedding of the BlueZ GAP profile plugin
(`src/bluez/profiles/gap/gas.c`).

The plugin keeps one `struct gas` handler per probed device in a global
`GSList *devices`, binds the GAP (0x1800) service of the peer's attribute
database, and reads the Device Name (0x2A00) and Appearance (0x2A01)
characteristics, pushing the decoded values into the device registry.

Modelling conventions:
* C strings and byte payloads are `List UInt8`; the value of a
  NUL-terminated buffer is its prefix before the first zero byte.
* Opaque pointers (device, database, client, service node) are `Nat`
  identities; `NULL`-able pointers are `Option Nat`.
* The device registry (`btd_device_device_set_name`,
  `device_set_appearance`) is a record plus an explicit trace of the
  calls made into it.
* Library collaborators (`g_utf8_validate`, `g_strndup`, `strncpy`,
  `g_strstrip`, `isascii`, `get_le16`) are embedded from their documented
  glibc/GLib semantics; the spec lists them as external collaborators.
-/

/-- 16-bit UUID of the GAP service (`#define GAP_UUID16 0x1800` in gas.c). -/
def GAP_UUID16 : Nat := 0x1800

/-- Standard GATT-assigned Device Name characteristic UUID (lib/uuid.h). -/
def GATT_CHARAC_DEVICE_NAME : Nat := 0x2A00

/-- Standard GATT-assigned Appearance characteristic UUID (lib/uuid.h). -/
def GATT_CHARAC_APPEARANCE : Nat := 0x2A01

/-- Maximum HCI name length (`HCI_MAX_NAME_LENGTH` in lib/hci.h: 248);
`name2utf8` uses a buffer of `HCI_MAX_NAME_LENGTH + 2` bytes. -/
def HCI_MAX_NAME_LENGTH : Nat := 248

/-- The admissible range of one UTF-8 continuation byte, as constrained
by GLib's `fast_validate_len` (`VALIDATE_BYTE` masks). -/
inductive ContRange where
  | r80BF | rA0BF | r809F | r90BF | r808F
deriving DecidableEq, Repr

/-- Does continuation byte `c` fall in range `r`? -/
def contOk : ContRange → UInt8 → Bool
  | .r80BF, c => 0x80 ≤ c && c ≤ 0xBF
  | .rA0BF, c => 0xA0 ≤ c && c ≤ 0xBF
  | .r809F, c => 0x80 ≤ c && c ≤ 0x9F
  | .r90BF, c => 0x90 ≤ c && c ≤ 0xBF
  | .r808F, c => 0x80 ≤ c && c ≤ 0x8F

/-- GLib's per-lead-byte continuation requirements: `none` for a byte that
cannot start a character there (NUL, stray continuation, overlong C0/C1,
lead ≥ 0xF5), otherwise the ranges the following bytes must satisfy
(0xE0/0xED/0xF0/0xF4 exclude overlong encodings, surrogates and
code points above U+10FFFF). -/
def leadRanges (b : UInt8) : Option (List ContRange) :=
  if b = 0 then none
  else if b ≤ 0x7F then some []
  else if b ≤ 0xC1 then none
  else if b ≤ 0xDF then some [.r80BF]
  else if b = 0xE0 then some [.rA0BF, .r80BF]
  else if b = 0xED then some [.r809F, .r80BF]
  else if b ≤ 0xEF then some [.r80BF, .r80BF]
  else if b = 0xF0 then some [.r90BF, .r80BF, .r80BF]
  else if b = 0xF4 then some [.r808F, .r80BF, .r80BF]
  else if b ≤ 0xF4 then some [.r80BF, .r80BF, .r80BF]
  else none

/-- The validation loop: `ranges` is the list of continuation-byte ranges
still owed by the current character (empty between characters). -/
def utf8Check : List UInt8 → List ContRange → Bool
  | [], ranges => ranges.isEmpty
  | b :: rest, [] =>
    match leadRanges b with
    | none => false
    | some rs => utf8Check rest rs
  | c :: rest, r :: ranges => contOk r c && utf8Check rest ranges

/-- GLib `g_utf8_validate(str, len, NULL)` on exactly `len` bytes.
GLib validation stops at an embedded NUL byte, so any input containing a
zero byte before `len` is invalid; otherwise it enforces strict UTF-8
(shortest form, no surrogates, max U+10FFFF). -/
def gUtf8Validate (l : List UInt8) : Bool := utf8Check l []

/-- The value of a NUL-terminated C buffer: the bytes before the first 0. -/
def cString (buf : List UInt8) : List UInt8 := buf.takeWhile (· != 0)

/-- `g_strndup(s, n)`: copies at most `n` bytes of `s`, stopping at a NUL,
into a fresh NUL-terminated buffer; we return the resulting string value. -/
def g_strndup (s : List UInt8) (n : Nat) : List UInt8 := cString (s.take n)

/-- glibc `isascii` on a byte read through `char`: true exactly for
values below 0x80. -/
def isasciiByte (b : UInt8) : Bool := b < 0x80

/-- One step of the replacement loop body: non-ASCII bytes become `' '`. -/
def replaceByte (b : UInt8) : UInt8 := if isasciiByte b then b else 0x20

/-- The in-place loop `for (i = 0; utf8_name[i] != 0; i++) if (!isascii ...)`:
walks the buffer up to the first NUL, replacing non-ASCII bytes by spaces,
and leaves everything from the NUL on untouched. -/
def replaceLoop : List UInt8 → List UInt8
  | [] => []
  | b :: rest => if b = 0 then b :: rest else replaceByte b :: replaceLoop rest

/-- GLib `g_ascii_isspace`: space, `\t`, `\n`, `\v`, `\f`, `\r`. -/
def g_ascii_isspace (b : UInt8) : Bool := b == 0x20 || (0x09 ≤ b && b ≤ 0x0D)

/-- GLib `g_strchug`: drop leading ASCII whitespace. -/
def g_strchug (s : List UInt8) : List UInt8 := s.dropWhile g_ascii_isspace

/-- GLib `g_strchomp`: drop trailing ASCII whitespace. -/
def g_strchomp (s : List UInt8) : List UInt8 :=
  (s.reverse.dropWhile g_ascii_isspace).reverse

/-- GLib `g_strstrip`: `g_strchomp (g_strchug s)`. -/
def g_strstrip (s : List UInt8) : List UInt8 := g_strchomp (g_strchug s)

/-- `g_strdup`: duplicates a C string; the string value is unchanged. -/
def g_strdup (s : List UInt8) : List UInt8 := s

/-- `name2utf8(name, len)` from gas.c, on a payload list whose length is
`len`.  Valid UTF-8 is duplicated as-is via `g_strndup`; otherwise the
bytes are copied by `strncpy` into a zeroed 250-byte stack buffer
(truncated to at most 249 bytes and at any embedded NUL), non-ASCII bytes
are replaced by spaces, and the result is stripped of leading and
trailing whitespace. -/
def name2utf8 (name : List UInt8) : List UInt8 :=
  if gUtf8Validate name then g_strndup name name.length
  else
    let len := min name.length (HCI_MAX_NAME_LENGTH + 1)
    let content := cString (name.take len)
    let buf := content ++ List.replicate (HCI_MAX_NAME_LENGTH + 2 - content.length) 0
    g_strdup (g_strstrip (cString (replaceLoop buf)))

/-- glibc/GLib `get_le16`: decode two bytes as a little-endian 16-bit
unsigned integer (`src/shared/util.h`). -/
def get_le16 (v : List UInt8) : Nat :=
  (v.headD 0).toNat + 256 * ((v.drop 1).headD 0).toNat

/-- The slice of the host device registry this plugin writes. -/
structure DeviceRecord where
  name : Option (List UInt8)
  appearance : Option Nat
deriving DecidableEq, Repr

/-- A call made into the device registry. -/
inductive RegistryCall where
  | setName (n : List UInt8)
  | setAppearance (v : Nat)
deriving DecidableEq, Repr

/-- `btd_device_device_set_name`: updates the record and traces the call. -/
def btd_device_device_set_name (dev : DeviceRecord) (n : List UInt8) :
    DeviceRecord × List RegistryCall :=
  ({ dev with name := some n }, [RegistryCall.setName n])

/-- `device_set_appearance`: updates the record and traces the call. -/
def device_set_appearance (dev : DeviceRecord) (v : Nat) :
    DeviceRecord × List RegistryCall :=
  ({ dev with appearance := some v }, [RegistryCall.setAppearance v])

/-- `read_device_name_cb(success, att_ecode, value, length, gas)` from
gas.c, acting on the device's registry record; returns the new record and
the registry calls made.  Failure and zero length return early. -/
def read_device_name_cb (success : Bool) (att_ecode : Nat) (value : List UInt8)
    (dev : DeviceRecord) : DeviceRecord × List RegistryCall :=
  if !success then (dev, [])
  else if value.length = 0 then (dev, [])
  else btd_device_device_set_name dev (name2utf8 value)

/-- `read_appearance_cb(success, att_ecode, value, length, gas)` from
gas.c: requires a 2-byte payload, decodes it little-endian and pushes it;
failure or any other length returns early. -/
def read_appearance_cb (success : Bool) (att_ecode : Nat) (value : List UInt8)
    (dev : DeviceRecord) : DeviceRecord × List RegistryCall :=
  if !success then (dev, [])
  else if value.length ≠ 2 then (dev, [])
  else device_set_appearance dev (get_le16 value)

/-- `struct gas` from gas.c: the per-device GAP handler.  `device` is the
device identity; `db`, `client` are the (nullable) database and GATT
client references; `dbId` the notification registration token; `attr`
the nullable bound GAP service node. -/
structure Gas where
  device : Nat
  db : Option Nat
  dbId : Nat
  client : Option Nat
  attr : Option Nat
deriving DecidableEq, Repr

/-- `cmp_device`: a handler matches a device iff their device references
are the same (`gas->device == device`). -/
def cmp_device (gas : Gas) (device : Nat) : Bool := gas.device == device

/-- An asynchronous read request issued against the GATT client. -/
inductive ReadRequest where
  | readLongDeviceName (valueHandle : Nat)
  | readAppearance (valueHandle : Nat)
deriving DecidableEq, Repr

/-- `handle_characteristic`: characteristic data is `none` when
`gatt_db_attribute_get_char_data` fails (logged, skipped), otherwise the
pair (value handle, characteristic UUID).  Device Name gets a long read,
Appearance a plain read, anything else is logged as unsupported. -/
def handle_characteristic (c : Option (Nat × Nat)) : List ReadRequest :=
  match c with
  | none => []
  | some (value_handle, uuid) =>
    if uuid = GATT_CHARAC_DEVICE_NAME then [ReadRequest.readLongDeviceName value_handle]
    else if uuid = GATT_CHARAC_APPEARANCE then [ReadRequest.readAppearance value_handle]
    else []

/-- `handle_gap_service`: iterate over the characteristics of the bound
service (`gatt_db_service_foreach_char`). -/
def handle_gap_service (chars : List (Option (Nat × Nat))) : List ReadRequest :=
  chars.flatMap handle_characteristic

/-- `gap_driver_probe`: fails (returns -1, logging "Profile probed twice")
when a handler for the device already exists in the global list;
otherwise appends a zero-initialised handler holding the device
reference. -/
def gap_driver_probe (devices : List Gas) (device : Nat) : Int × List Gas :=
  match devices.find? (fun g => cmp_device g device) with
  | some _ => (-1, devices)
  | none =>
    (0, devices ++ [{ device := device, db := none, dbId := 0, client := none, attr := none }])

/-- `gap_driver_remove`: logs and leaves the list alone when no handler
exists; otherwise removes the handler from the global list. -/
def gap_driver_remove (devices : List Gas) (device : Nat) : List Gas :=
  match devices.find? (fun g => cmp_device g device) with
  | none => devices
  | some gas => devices.erase gas

/-- `service_added(attr, gas)`: a database service-added notification.
`ready` is `bt_gatt_client_is_ready(gas->client)`, `uuid` the added
service's UUID, `chars` its characteristic data.  Returns the new handler
state and the reads issued. -/
def service_added (gas : Gas) (ready : Bool) (attr : Nat) (uuid : Nat)
    (chars : List (Option (Nat × Nat))) : Gas × List ReadRequest :=
  if !ready then (gas, [])
  else if uuid ≠ GAP_UUID16 then (gas, [])
  else
    match gas.attr with
    | some _ => (gas, [])
    | none => ({ gas with attr := some attr }, handle_gap_service chars)

/-- `service_removed(attr, gas)`: clears `gas->attr` exactly when the
removed node is the stored one. -/
def service_removed (gas : Gas) (attr : Nat) : Gas :=
  if gas.attr = some attr then { gas with attr := none } else gas

/-- `foreach_gap_service(attr, gas)`: the visitor passed to
`gatt_db_foreach_service` at accept time; binds the first GAP service and
handles it, and only logs for any further one. -/
def foreach_gap_service (acc : Gas × List ReadRequest)
    (svc : Nat × List (Option (Nat × Nat))) : Gas × List ReadRequest :=
  match acc.1.attr with
  | some _ => acc
  | none => ({ acc.1 with attr := some svc.1 }, acc.2 ++ handle_gap_service svc.2)

/-- Replace the first handler matching `device` (the one
`g_slist_find_custom` returned and gas.c mutates in place). -/
def replaceFirst : List Gas → Nat → Gas → List Gas
  | [], _, _ => []
  | g :: gs, device, g2 =>
    if cmp_device g device then g2 :: gs else g :: replaceFirst gs device g2

/-- `gap_driver_accept`: fails (-1) without a handler; otherwise nulls
`attr`, drops the old db/client references and registration, acquires the
new ones (`db`, `client`, `dbId`), and scans `gapServices` — the services
of the new database whose UUID is the GAP UUID, each with its
characteristic data — with `foreach_gap_service`. -/
def gap_driver_accept (devices : List Gas) (device : Nat)
    (db client dbId : Nat) (gapServices : List (Nat × List (Option (Nat × Nat)))) :
    Int × List Gas × List ReadRequest :=
  match devices.find? (fun g => cmp_device g device) with
  | none => (-1, devices, [])
  | some gas =>
    let gas1 := { gas with attr := none, db := some db, client := some client, dbId := dbId }
    let res := gapServices.foldl foreach_gap_service (gas1, [])
    (0, replaceFirst devices device res.1, res.2)

/-- The name-conversion policy as the specification words it for invalid
UTF-8: truncate to the fixed maximum length, replace every byte outside
the printable ASCII range (0x20–0x7E) with a space, then strip leading
and trailing whitespace.  Stated for comparison with `name2utf8`. -/
def spec_printable_name (v : List UInt8) : List UInt8 :=
  g_strstrip ((v.take (HCI_MAX_NAME_LENGTH + 1)).map
    (fun b => if 0x20 ≤ b && b ≤ 0x7E then b else 0x20))

/-! ### Helper lemmas about the embedded library routines -/

theorem leadRanges_zero : leadRanges 0 = none := by decide

theorem contOk_ne_zero {r : ContRange} {c : UInt8} (h : contOk r c = true) :
    (c != 0) = true := by
  rw [bne_iff_ne]
  rintro rfl
  cases r <;> exact absurd h (by decide)

/-- A byte list accepted by the validator contains no NUL byte. -/
theorem utf8Check_takeWhile : ∀ (l : List UInt8) (ranges : List ContRange),
    utf8Check l ranges = true → l.takeWhile (· != 0) = l := by
  intro l
  induction l with
  | nil => intro ranges _; rfl
  | cons b rest ih =>
    intro ranges h
    match ranges with
    | [] =>
      match hl : leadRanges b with
      | none =>
        simp only [utf8Check, hl] at h
        exact Bool.noConfusion h
      | some rs =>
        simp only [utf8Check, hl] at h
        have hb : (b != 0) = true := by
          rw [bne_iff_ne]
          rintro rfl
          rw [leadRanges_zero] at hl
          cases hl
        rw [@List.takeWhile_cons_of_pos UInt8 (fun x => x != 0) b rest hb, ih rs h]
    | r :: rs =>
      simp only [utf8Check, Bool.and_eq_true] at h
      rw [@List.takeWhile_cons_of_pos UInt8 (fun x => x != 0) b rest (contOk_ne_zero h.1),
          ih rs h.2]

/-- Valid UTF-8 input has no embedded NUL, so `cString` keeps it whole. -/
theorem gUtf8Validate_takeWhile {l : List UInt8} (h : gUtf8Validate l = true) :
    l.takeWhile (· != 0) = l :=
  utf8Check_takeWhile l [] h

/-- On valid UTF-8, `name2utf8` returns its input unchanged. -/
theorem name2utf8_valid {v : List UInt8} (h : gUtf8Validate v = true) :
    name2utf8 v = v := by
  unfold name2utf8
  rw [if_pos h]
  unfold g_strndup cString
  rw [List.take_length, gUtf8Validate_takeWhile h]

/-- Bytes kept by `cString` are nonzero. -/
theorem cString_mem_ne_zero {b : UInt8} {l : List UInt8} (h : b ∈ cString l) :
    (b != 0) = true := by
  unfold cString at h
  exact List.mem_takeWhile_imp (p := fun x => x != 0) h

/-- The replacement loop maps the NUL-free prefix and stops at the NUL. -/
theorem replaceLoop_append {xs rest : List UInt8}
    (h : ∀ b ∈ xs, (b != 0) = true) :
    replaceLoop (xs ++ rest) = xs.map replaceByte ++ replaceLoop rest := by
  induction xs with
  | nil => rfl
  | cons a tl ih =>
    have ha : ¬ a = 0 := by
      have := h a (by simp)
      rwa [bne_iff_ne] at this
    rw [List.cons_append, replaceLoop, if_neg ha, List.map_cons, List.cons_append,
        ih (fun b hb => h b (by simp [hb]))]

theorem replaceLoop_replicate_zero (k : Nat) :
    replaceLoop (List.replicate k 0) = List.replicate k 0 := by
  cases k with
  | zero => rfl
  | succ n => rw [List.replicate_succ, replaceLoop, if_pos rfl]

/-- `replaceByte` never produces a NUL from a non-NUL byte. -/
theorem replaceByte_ne_zero {b : UInt8} (h : (b != 0) = true) :
    (replaceByte b != 0) = true := by
  unfold replaceByte
  split
  · exact h
  · decide

theorem cString_append_replicate_zero {xs : List UInt8} (k : Nat)
    (h : ∀ b ∈ xs, (b != 0) = true) :
    cString (xs ++ List.replicate k 0) = xs := by
  unfold cString
  rw [List.takeWhile_append_of_pos h]
  cases k with
  | zero => simp
  | succ n => simp [List.replicate_succ, List.takeWhile_cons]

/-- The fallback branch of `name2utf8`: truncate to 249 bytes, cut at the
first NUL, replace non-ASCII bytes by spaces, then strip whitespace. -/
theorem name2utf8_invalid {v : List UInt8} (h : gUtf8Validate v = false) :
    name2utf8 v =
      g_strstrip (((v.take (HCI_MAX_NAME_LENGTH + 1)).takeWhile (· != 0)).map replaceByte) := by
  unfold name2utf8
  rw [if_neg (by simp [h])]
  have htake : v.take (min v.length (HCI_MAX_NAME_LENGTH + 1))
      = v.take (HCI_MAX_NAME_LENGTH + 1) := by
    rw [Nat.min_comm, ← List.take_take, List.take_length]
  simp only [htake]
  have hmem : ∀ b ∈ cString (v.take (HCI_MAX_NAME_LENGTH + 1)), (b != 0) = true :=
    fun b hb => cString_mem_ne_zero hb
  rw [replaceLoop_append hmem, replaceLoop_replicate_zero,
      cString_append_replicate_zero _ (by
        intro b hb
        rw [List.mem_map] at hb
        obtain ⟨a, ha, rfl⟩ := hb
        exact replaceByte_ne_zero (hmem a ha)),
      g_strdup]
  rfl

/-! ### Claim theorems -/

/-- C3: a Device Name read completion whose payload is valid UTF-8 (and
nonempty, so a push happens at all) pushes exactly the payload bytes into
the registry, with no substitution and no whitespace stripping. -/
theorem name_valid_utf8_pushed_unchanged (e : Nat) (v : List UInt8) (dev : DeviceRecord)
    (h1 : gUtf8Validate v = true) (h2 : v ≠ []) :
    read_device_name_cb true e v dev
      = ({ dev with name := some v }, [RegistryCall.setName v]) := by
  unfold read_device_name_cb
  rw [if_neg (by decide), if_neg (by simp [List.length_eq_zero, h2]),
      name2utf8_valid h1]
  rfl

/-- C3 witness: the valid ASCII name "Pixel" is pushed unchanged. -/
theorem name_valid_utf8_pushed_unchanged_witness :
    read_device_name_cb true 0 [0x50, 0x69, 0x78, 0x65, 0x6C] { name := none, appearance := none }
      = ({ name := some [0x50, 0x69, 0x78, 0x65, 0x6C], appearance := none },
         [RegistryCall.setName [0x50, 0x69, 0x78, 0x65, 0x6C]]) :=
  name_valid_utf8_pushed_unchanged 0 _ _ (by decide) (by decide)

/-- C5: a failed Device Name read, or a successful one with an empty
payload, makes no registry call and leaves the record unchanged. -/
theorem device_name_failure_or_empty_noop (e : Nat) (v : List UInt8) (dev : DeviceRecord) :
    read_device_name_cb false e v dev = (dev, []) ∧
    read_device_name_cb true e [] dev = (dev, []) :=
  ⟨rfl, rfl⟩

/-- C9: the nonzero-length all-0xFF payload is invalid UTF-8, strips to
the empty name, and that empty name IS pushed into the registry. -/
theorem empty_after_strip_name_pushed (e : Nat) (dev : DeviceRecord) :
    read_device_name_cb true e [0xFF, 0xFF] dev
      = ({ dev with name := some [] }, [RegistryCall.setName []]) ∧
    gUtf8Validate [0xFF, 0xFF] = false ∧
    name2utf8 [0xFF, 0xFF] = [] := by
  refine ⟨?_, by decide, by decide⟩
  unfold read_device_name_cb
  rw [if_neg (by decide), if_neg (by decide)]
  have hn : name2utf8 [0xFF, 0xFF] = [] := by decide
  rw [hn]
  rfl

/-- C2 counterexample: on the invalid-UTF-8 payload [0xFF, 0x01, 0x41] the
code keeps the non-printable ASCII byte 0x01 (isascii accepts it), while
the claimed printable-ASCII substitution would replace it by a space and
strip it away: the pushed name differs from the claimed one. -/
theorem name_policy_printable_counterexample :
    gUtf8Validate [0xFF, 0x01, 0x41] = false ∧
    (read_device_name_cb true 0 [0xFF, 0x01, 0x41] { name := none, appearance := none }).2
      = [RegistryCall.setName [0x01, 0x41]] ∧
    spec_printable_name [0xFF, 0x01, 0x41] = [0x41] ∧
    (([0x01, 0x41] : List UInt8) == [0x41]) = false :=
  ⟨by decide, by decide, by decide, by decide⟩

/-- C2 amended: on an invalid-UTF-8 nonempty payload the pushed name is
obtained by truncating to 249 bytes and at the first NUL byte, replacing
every non-ASCII byte (≥ 0x80) with a space — bytes 0x01..0x7F are kept
as-is — and stripping leading/trailing ASCII whitespace; in particular
[0xFF, 0x41, 0x42, 0xFF] yields "AB". -/
theorem name_invalid_nonascii_policy (e : Nat) (v : List UInt8) (dev : DeviceRecord)
    (h1 : gUtf8Validate v = false) (h2 : v ≠ []) :
    read_device_name_cb true e v dev
      = (let n := g_strstrip
            (((v.take (HCI_MAX_NAME_LENGTH + 1)).takeWhile (· != 0)).map replaceByte)
         ({ dev with name := some n }, [RegistryCall.setName n])) ∧
    name2utf8 [0xFF, 0x41, 0x42, 0xFF] = [0x41, 0x42] := by
  refine ⟨?_, by decide⟩
  unfold read_device_name_cb
  rw [if_neg (by decide), if_neg (by simp [List.length_eq_zero, h2]),
      name2utf8_invalid h1]
  rfl

/-- C2 amended witness: instantiated at the spec's own example input. -/
theorem name_invalid_nonascii_policy_witness :
    read_device_name_cb true 0 [0xFF, 0x41, 0x42, 0xFF] { name := none, appearance := none }
      = (let n := g_strstrip
            ((([0xFF, 0x41, 0x42, 0xFF].take (HCI_MAX_NAME_LENGTH + 1)).takeWhile (· != 0)).map
              replaceByte)
         ({ name := some n, appearance := none }, [RegistryCall.setName n])) ∧
    name2utf8 [0xFF, 0x41, 0x42, 0xFF] = [0x41, 0x42] :=
  name_invalid_nonascii_policy 0 [0xFF, 0x41, 0x42, 0xFF] { name := none, appearance := none }
    (by decide) (by decide)

/-- C10: in the invalid-UTF-8 fallback path, everything from the first
NUL byte on is discarded: the pushed name is computed from the prefix of
the payload before its first zero byte. -/
theorem name_fallback_cuts_at_nul (v : List UInt8)
    (h1 : gUtf8Validate v = false) (h2 : (0 : UInt8) ∈ v) :
    name2utf8 v =
      g_strstrip (((v.takeWhile (· != 0)).take (HCI_MAX_NAME_LENGTH + 1)).map replaceByte) := by
  rw [name2utf8_invalid h1, List.take_takeWhile]

/-- C10 witness: [0xFF, 0x41, 0x00, 0x42] is processed as [0xFF, 0x41]. -/
theorem name_fallback_cuts_at_nul_witness :
    name2utf8 [0xFF, 0x41, 0x00, 0x42] =
      g_strstrip ((([0xFF, 0x41, 0x00, 0x42].takeWhile (· != 0)).take
        (HCI_MAX_NAME_LENGTH + 1)).map replaceByte) :=
  name_fallback_cuts_at_nul [0xFF, 0x41, 0x00, 0x42] (by decide) (by decide)

/-- C4: a successful Appearance read updates the registry exactly for
2-byte payloads, decoding them little-endian; any other length makes no
registry call; [0x40, 0x03] decodes to 0x0340. -/
theorem appearance_update_iff_len2 (e : Nat) (b0 b1 : UInt8) (v : List UInt8)
    (dev : DeviceRecord) :
    read_appearance_cb true e [b0, b1] dev
      = ({ dev with appearance := some (b0.toNat + 256 * b1.toNat) },
         [RegistryCall.setAppearance (b0.toNat + 256 * b1.toNat)]) ∧
    (v.length = 2 ∨ read_appearance_cb true e v dev = (dev, [])) ∧
    get_le16 [0x40, 0x03] = 0x0340 := by
  refine ⟨rfl, ?_, by decide⟩
  by_cases hl : v.length = 2
  · exact Or.inl hl
  · right
    unfold read_appearance_cb
    rw [if_neg (by decide), if_pos hl]

/-- C1: probing a device that already has a handler returns -1 and leaves
the process-wide handler list — hence every existing handler's state —
unchanged. -/
theorem gap_probe_duplicate_fails (devices : List Gas) (d : Nat)
    (h : ∃ g ∈ devices, g.device = d) :
    gap_driver_probe devices d = (-1, devices) := by
  have hsome : (devices.find? (fun g => cmp_device g d)).isSome := by
    rw [List.find?_isSome]
    obtain ⟨g, hg, he⟩ := h
    exact ⟨g, hg, by simp [cmp_device, he]⟩
  obtain ⟨g2, hf⟩ := Option.isSome_iff_exists.mp hsome
  unfold gap_driver_probe
  rw [hf]

/-- C1 witness: a second probe for device 7 fails and changes nothing. -/
theorem gap_probe_duplicate_fails_witness :
    (∃ g ∈ [({ device := 7, db := none, dbId := 0, client := none, attr := none } : Gas)],
        g.device = 7) ∧
    gap_driver_probe [{ device := 7, db := none, dbId := 0, client := none, attr := none }] 7
      = (-1, [{ device := 7, db := none, dbId := 0, client := none, attr := none }]) :=
  ⟨by decide, gap_probe_duplicate_fails _ 7 (by decide)⟩

/-- C6: a service-added notification is a no-op — no binding, no reads —
unless the client is ready, the UUID is the GAP UUID, and no service is
bound yet; in particular an already-bound handler keeps its first
service. -/
theorem service_added_guard (gas : Gas) (ready : Bool) (attr uuid : Nat)
    (chars : List (Option (Nat × Nat)))
    (h : ready = false ∨ uuid ≠ GAP_UUID16 ∨ gas.attr ≠ none) :
    service_added gas ready attr uuid chars = (gas, []) := by
  cases ready with
  | false => rfl
  | true =>
    rcases h with h | h | h
    · exact absurd h (by simp)
    · unfold service_added
      rw [if_neg (by decide), if_pos h]
    · unfold service_added
      rw [if_neg (by decide)]
      by_cases hu : uuid = GAP_UUID16
      · rw [if_neg (by simp [hu])]
        obtain ⟨a, ha⟩ := Option.ne_none_iff_exists.mp h
        rw [← ha]
      · rw [if_pos hu]

/-- C6 witness: with a service already bound, a ready client and a GAP
UUID, the notification still changes nothing and issues no reads. -/
theorem service_added_guard_witness :
    ((true = false) ∨ (0x1800 : Nat) ≠ GAP_UUID16 ∨
      ({ device := 1, db := some 2, dbId := 3, client := some 4, attr := some 5 } : Gas).attr
        ≠ none) ∧
    service_added { device := 1, db := some 2, dbId := 3, client := some 4, attr := some 5 }
        true 6 0x1800 [some (10, 0x2A00)]
      = ({ device := 1, db := some 2, dbId := 3, client := some 4, attr := some 5 }, []) :=
  ⟨by decide, service_added_guard _ true 6 0x1800 [some (10, 0x2A00)] (by decide)⟩

/-- C7: a service-removed notification clears `attr` exactly when the
removed node is the stored one, is a no-op otherwise, and never touches
the device, database, registration id or client fields. -/
theorem service_removed_exact_match (gas : Gas) (a : Nat) :
    service_removed gas a
      = (if gas.attr = some a then { gas with attr := none } else gas) ∧
    (service_removed gas a).device = gas.device ∧
    (service_removed gas a).db = gas.db ∧
    (service_removed gas a).dbId = gas.dbId ∧
    (service_removed gas a).client = gas.client := by
  refine ⟨rfl, ?_, ?_, ?_, ?_⟩ <;>
    (unfold service_removed; split <;> rfl)

/-- The updated handler is what a later lookup for the device finds. -/
theorem find?_replaceFirst (l : List Gas) (d : Nat) (g2 : Gas)
    (hl : (l.find? (fun x => cmp_device x d)).isSome) (hg : cmp_device g2 d = true) :
    (replaceFirst l d g2).find? (fun x => cmp_device x d) = some g2 := by
  induction l with
  | nil => simp at hl
  | cons a tl ih =>
    by_cases ha : cmp_device a d
    · unfold replaceFirst
      rw [if_pos ha]
      exact List.find?_cons_of_pos _ hg
    · unfold replaceFirst
      rw [if_neg ha, List.find?_cons_of_neg _ (by simp [ha])]
      rw [List.find?_cons_of_neg _ (by simp [ha])] at hl
      exact ih hl

/-- C8: accept on a probed device succeeds, and even when the new
database holds no GAP service, the device's handler afterwards has a null
`attr` — a binding from a prior connection never survives — and carries
the freshly acquired database, client and registration id. -/
theorem accept_resets_service_handle (devices : List Gas) (d db client dbId : Nat) (g : Gas)
    (h : devices.find? (fun x => cmp_device x d) = some g) :
    (gap_driver_accept devices d db client dbId []).1 = 0 ∧
    (gap_driver_accept devices d db client dbId []).2.1.find? (fun x => cmp_device x d)
      = some { g with attr := none, db := some db, client := some client, dbId := dbId } := by
  unfold gap_driver_accept
  rw [h]
  refine ⟨rfl, ?_⟩
  have hp : cmp_device g d = true := List.find?_some (p := fun x => cmp_device x d) h
  exact find?_replaceFirst devices d _ (by rw [h]; rfl) hp

/-- C8 witness: a handler bound to node 5 loses that binding at accept
even though the new database has no GAP service. -/
theorem accept_resets_service_handle_witness :
    ([({ device := 1, db := some 2, dbId := 3, client := some 4, attr := some 5 } : Gas)].find?
        (fun x => cmp_device x 1)
      = some { device := 1, db := some 2, dbId := 3, client := some 4, attr := some 5 }) ∧
    ((gap_driver_accept [{ device := 1, db := some 2, dbId := 3, client := some 4, attr := some 5 }]
        1 20 21 22 []).1 = 0 ∧
     (gap_driver_accept [{ device := 1, db := some 2, dbId := 3, client := some 4, attr := some 5 }]
        1 20 21 22 []).2.1.find? (fun x => cmp_device x 1)
      = some { device := 1, db := some 20, dbId := 22, client := some 21, attr := none }) :=
  ⟨by decide,
   accept_resets_service_handle
     [{ device := 1, db := some 2, dbId := 3, client := some 4, attr := some 5 }] 1 20 21 22
     { device := 1, db := some 2, dbId := 3, client := some 4, attr := some 5 } (by decide)⟩
